import Mathlib

/-!
# BodyActuator (OpenSim/Actuators/BodyActuator.cpp)

A shallow embedding of `BodyActuator` and of the collaborators it calls into,
followed by the properties of `computeForce`, `getPower` and of the connector
protocol.

Conventions of the embedding.

* The definitions are generic in the number type `D` that stands for `double`.
  They use its `0`, `+`, `-` and `*` and assume no law of them, so every
  definition computes what the source computes in whatever arithmetic `D` has.
  Two instances are used.  `Double` is IEEE 754 binary64 with rounding to
  nearest, ties to even: the arithmetic of the loop of `getPower`, which the
  source does itself.  `ℚ` is exact arithmetic: the properties of the force
  accumulator, whose additions are code outside `BodyActuator.cpp` that the
  specification describes as plain addition, are stated in it.
* A `SimTK::Vec3` is a record of three scalars, a `SimTK::SpatialVec` is a pair
  of `Vec3`: element `[0]` is the rotational part (torque, angular velocity),
  element `[1]` the translational part (force, linear velocity).
* A C++ exception is an `Except Error` result.  A method that writes into a
  caller-owned buffer returns the buffer contents after the call together with
  the outcome, so that a failing call still says what the buffers hold.
* The embedded source is `BodyActuator.cpp`.  What it calls in other files
  (connector, model, body set, control source, `Force` helpers, the dynamics
  engine) is modelled from the specification, and the doc comment of each such
  definition says so and names the missing code.
-/

namespace OpenSim

/-! ## The arithmetic of `double` -/

/-- A C++ `double`, IEEE 754 binary64: not-a-number, an infinity with its sign,
or the finite value `(-1)^neg * m * 2^e`.  The values the operations return are
in the form of the format: `m < 2^53`, `-1074 ≤ e ≤ 971`, and `e = -1074`
when `m < 2^52` (zero and the subnormal numbers).  Zero keeps its sign. -/
inductive Double where
  | nan
  | inf (neg : Bool)
  | fin (neg : Bool) (m : Nat) (e : Int)
deriving DecidableEq, Repr

namespace Double

/-- Number of binary digits of `n`, computed with `fuel` halvings at most. -/
def bitLengthAux : Nat → Nat → Nat
  | 0, _ => 0
  | fuel + 1, n => if n = 0 then 0 else bitLengthAux fuel (n / 2) + 1

/-- Number of binary digits of `n`: 0 for 0, 3 for 5. -/
def bitLength (n : Nat) : Nat := bitLengthAux n n

/-- The `double` nearest to the exact value `(-1)^neg * m * 2^e`, ties to the
even significand: the rounding every arithmetic operation ends with.  The
significand keeps 53 digits, fewer at the bottom of the range (exponent
-1074); a result of magnitude `2^1024` or more is the infinity. -/
def round (neg : Bool) (m : Nat) (e : Int) : Double :=
  if m = 0 then fin neg 0 (-1074)
  else
    let shift : Int := max ((bitLength m : Int) - 53) (-1074 - e)
    if shift ≤ 0 then
      if e + shift > 971 then inf neg else fin neg (m * 2 ^ (-shift).toNat) (e + shift)
    else
      let q := m / 2 ^ shift.toNat
      let r := m % 2 ^ shift.toNat
      let half := 2 ^ (shift.toNat - 1)
      let up := if r > half ∨ (r = half ∧ q % 2 = 1) then q + 1 else q
      if up = 2 ^ 53 then
        if e + shift + 1 > 971 then inf neg else fin neg (2 ^ 52) (e + shift + 1)
      else if e + shift > 971 then inf neg else fin neg up (e + shift)

/-- The product `x * y` of two `double` values.  Infinity times zero is
not-a-number. -/
def mul : Double → Double → Double
  | nan, _ => nan
  | _, nan => nan
  | inf s, inf t => inf (xor s t)
  | inf s, fin t n _ => if n = 0 then nan else inf (xor s t)
  | fin s m _, inf t => if m = 0 then nan else inf (xor s t)
  | fin s m e, fin t n f => round (xor s t) (m * n) (e + f)

/-- The integer `m` with the sign `neg`. -/
def signed (neg : Bool) (m : Nat) : Int := if neg then -(m : Int) else (m : Int)

/-- The sum `x + y` of two `double` values.  Opposite infinities give
not-a-number; an exact sum of zero is `+0`, except that `-0 + -0` is `-0`. -/
def add : Double → Double → Double
  | nan, _ => nan
  | _, nan => nan
  | inf s, inf t => if s = t then inf s else nan
  | inf s, fin _ _ _ => inf s
  | fin _ _ _, inf t => inf t
  | fin s m e, fin t n f =>
    let g := min e f
    let c : Int := signed s (m * 2 ^ (e - g).toNat) + signed t (n * 2 ^ (f - g).toNat)
    if c = 0 then fin (s && t) 0 (-1074) else round (decide (c < 0)) c.natAbs g

/-- The opposite `-x`. -/
def neg : Double → Double
  | nan => nan
  | inf s => inf (!s)
  | fin s m e => fin (!s) m e

/-- The difference `x - y`, which is `x + (-y)`. -/
def sub (x y : Double) : Double := add x (neg y)

instance : Zero Double := ⟨fin false 0 (-1074)⟩

instance : Add Double := ⟨add⟩

instance : Mul Double := ⟨mul⟩

instance : Sub Double := ⟨sub⟩

/-- The `double` an integer converts to. -/
def ofInt (z : Int) : Double := round (decide (z < 0)) z.natAbs 0

/-- Whether the value is finite: neither an infinity nor not-a-number. -/
def isFinite : Double → Bool
  | fin _ _ _ => true
  | _ => false

/-- Whether the value is a zero, `+0` or `-0`. -/
def isZero : Double → Bool
  | fin _ m _ => decide (m = 0)
  | _ => false

/-- The exact value of a finite `double` as a rational number. -/
def toRat? : Double → Option ℚ
  | fin s m e => some ((if s then -1 else 1) * (m : ℚ) * (2 : ℚ) ^ e)
  | _ => none

/-- The dot product of two lists of finite `double` values in exact arithmetic,
without any rounding: the real number the formula `sum of c[i] * v[i]` denotes.
There is none when an entry is not finite. -/
def exactDot : List Double → List Double → Option ℚ
  | c :: cs, v :: vs => do
    let x ← c.toRat?
    let y ← v.toRat?
    let r ← exactDot cs vs
    pure (x * y + r)
  | _, _ => some 0

end Double

/-! ## Vectors -/

/-- Three scalars, as `SimTK::Vec3`. -/
structure Vec3 (D : Type) where
  x : D
  y : D
  z : D
deriving DecidableEq, Repr

namespace Vec3

/-- Component-wise sum. -/
def add {D : Type} [Add D] (a b : Vec3 D) : Vec3 D := ⟨a.x + b.x, a.y + b.y, a.z + b.z⟩

/-- The zero vector. -/
def zero {D : Type} [Zero D] : Vec3 D := ⟨0, 0, 0⟩

instance {D : Type} [Add D] : Add (Vec3 D) := ⟨add⟩

instance {D : Type} [Zero D] : Zero (Vec3 D) := ⟨zero⟩

/-- Cross product `a × b` (the operator `%` of SimTK). -/
def cross {D : Type} [Sub D] [Mul D] (a b : Vec3 D) : Vec3 D :=
  ⟨a.y * b.z - a.z * b.y, a.z * b.x - a.x * b.z, a.x * b.y - a.y * b.x⟩

end Vec3

/-- A `SimTK::SpatialVec`: `rot` is element `[0]` (moment or angular velocity),
`lin` is element `[1]` (force or linear velocity). -/
structure SpatialVec (D : Type) where
  rot : Vec3 D
  lin : Vec3 D
deriving DecidableEq, Repr

namespace SpatialVec

/-- Component-wise sum. -/
def add {D : Type} [Add D] (a b : SpatialVec D) : SpatialVec D :=
  ⟨a.rot + b.rot, a.lin + b.lin⟩

/-- The zero spatial vector. -/
def zero {D : Type} [Zero D] : SpatialVec D := ⟨0, 0⟩

instance {D : Type} [Add D] : Add (SpatialVec D) := ⟨add⟩

instance {D : Type} [Zero D] : Zero (SpatialVec D) := ⟨zero⟩

/-- The six components in the order of the control vector: rotational part
first, then translational part. -/
def components {D : Type} (v : SpatialVec D) : List D :=
  [v.rot.x, v.rot.y, v.rot.z, v.lin.x, v.lin.y, v.lin.z]

end SpatialVec

/-! ## Errors -/

/-- The failures a call can end with.  The first three are the taxonomy of the
specification; the last three are the failures of the collaborators that
`BodyActuator.cpp` calls before it computes anything. -/
inductive Error where
  | UnresolvedReferenceError
  | ReferenceResolutionError (owner : String) (missing : String)
  | ControlVectorSizeError
  | NoModel
  | NameNotFound (name : String)
  | IndexOutOfRange (i : Nat)
deriving DecidableEq, Repr

/-! ## Collaborators -/

/-- Modelled from the spec: `Body` (Simulation/SimbodyEngine/Body.h is not
available).  A body has a name, its identity within a model, and a stable index
into the engine's body table. -/
structure Body where
  name : String
  index : Nat
deriving DecidableEq, Repr

namespace Body

/-- Name of the body (`getName()`). -/
def getName (b : Body) : String := b.name

/-- Index of the body in the engine's body table (`getIndex()`). -/
def getIndex (b : Body) : Nat := b.index

end Body

/-- Modelled from the spec: the lookup `bodyRegistry.lookup(name)` of the model
(`getBodySet().get(name)`, Set.h is not available): the body of that name,
a failure when there is none. -/
def BodySet.get (bodies : List Body) (name : String) : Except Error Body :=
  match bodies.find? (fun b => b.name == name) with
  | some b => .ok b
  | none => .error (.NameNotFound name)

/-- Modelled from the spec: `Model` (Simulation/Model/Model.h is not
available), reduced to the registry of its bodies. -/
structure Model where
  bodySet : List Body
deriving DecidableEq, Repr

namespace Model

/-- Registry of the bodies of the model (`getBodySet()`). -/
def getBodySet (m : Model) : List Body := m.bodySet

end Model

/-- Modelled from the spec: what a `SimTK::State` gives this file (the
dynamics engine and the control source are not available): for every index of
the engine's body table the origin location and the spatial velocity of that
body in the global frame, and for every actuator, by name, the control vector
the control source returns for it. -/
structure State (D : Type) where
  bodyOriginLocation : Nat → Vec3 D
  bodyVelocity : Nat → SpatialVec D
  controls : String → List D

namespace State

/-- Origin location of the mobilized body with index `mbi`, in the global frame
(`getMobilizedBody(mbi).getBodyOriginLocation(s)`). -/
def getBodyOriginLocation {D : Type} (s : State D) (mbi : Nat) : Vec3 D :=
  s.bodyOriginLocation mbi

/-- Spatial velocity of the mobilized body with index `mbi`, in the global frame
(`getMobilizedBody(mbi).getBodyVelocity(s)`). -/
def getBodyVelocity {D : Type} (s : State D) (mbi : Nat) : SpatialVec D :=
  s.bodyVelocity mbi

end State

/-- Read of entry `i` of a `SimTK::Vector`, the operator `[]` that the source
applies to the control vector and to `bodyVelocityVec`.  The source does not
compare `i` with the size beforehand; a read past the end, which has no value
to return, is a failure of the call. -/
def Vector.get {D : Type} (v : List D) (i : Nat) : Except Error D :=
  match v[i]? with
  | some c => .ok c
  | none => .error (.IndexOutOfRange i)

/-! ## Connector -/

/-- Modelled from the spec: `Connector<Body>` (Common/ComponentConnector.h is
not available).  `connected_to_name` is the recorded name of the target,
`connectee` the resolved target: `none` is the unresolved connector, `some b`
the connector resolved to `b`. -/
structure Connector where
  name : String
  connected_to_name : String
  connectee : Option Body
deriving DecidableEq, Repr

namespace Connector

/-- Modelled from the spec: `setConnecteeName(name)` records the symbolic
target and never fails; the resolved target is not touched. -/
def set_connected_to_name (c : Connector) (n : String) : Connector :=
  { c with connected_to_name := n }

/-- Modelled from the spec: `getConnecteeName()` returns the recorded name,
resolved or not. -/
def get_connected_to_name (c : Connector) : String := c.connected_to_name

/-- Modelled from the spec: `connect(target)` binds the connector to a concrete
instance without a name lookup and marks it resolved. -/
def connect (c : Connector) (target : Body) : Connector :=
  { c with connectee := some target }

/-- Modelled from the spec: the connector with its binding removed, the
unresolved state. -/
def disconnect (c : Connector) : Connector :=
  { c with connectee := none }

/-- Modelled from the spec: `getConnectee()` returns the resolved reference and
fails with an UnresolvedReferenceError when the connector is not resolved. -/
def getConnectee (c : Connector) : Except Error Body :=
  match c.connectee with
  | some b => .ok b
  | none => .error .UnresolvedReferenceError

/-- Modelled from the spec: `resolve(registry)` looks the recorded name up in
the registry; on success the connector is bound to the body found, on failure
the call fails with a ReferenceResolutionError naming the owner of the
connector and the missing name. -/
def resolve (c : Connector) (owner : String) (registry : List Body) :
    Except Error Connector :=
  match registry.find? (fun b => b.name == c.connected_to_name) with
  | some b => .ok (c.connect b)
  | none => .error (.ReferenceResolutionError owner c.connected_to_name)

end Connector

/-! ## Force accumulator -/

/-- The buffer `bodyForces` of spatial forces, one slot for every index of the
engine's body table. -/
abbrev BodyForces (D : Type) := Nat → SpatialVec D

/-- Adds `v` to slot `i` of the buffer and leaves the other slots alone. -/
def BodyForces.addInto {D : Type} [Add D] (bodyForces : BodyForces D) (i : Nat)
    (v : SpatialVec D) : BodyForces D :=
  fun j => if j = i then bodyForces j + v else bodyForces j

/-- Modelled from the spec: `addTorque(body, torqueVec)` of the accumulator
(`Force::applyTorque`, Force.cpp is not available): the torque is added as a
pure couple to the rotational part of the slot of `body`. -/
def applyTorque {D : Type} [Zero D] [Add D] (_s : State D) (body : Body) (torque : Vec3 D)
    (bodyForces : BodyForces D) : BodyForces D :=
  bodyForces.addInto body.getIndex ⟨torque, 0⟩

/-- Modelled from the spec: `addPointForce(body, point, forceVec)` of the
accumulator (`Force::applyForceToPoint`, Force.cpp is not available): the force
is added to the translational part of the slot of `body`, and the moment it
induces, `point × force`, to the rotational part. -/
def applyForceToPoint {D : Type} [Add D] [Sub D] [Mul D] (_s : State D) (body : Body)
    (point : Vec3 D) (force : Vec3 D) (bodyForces : BodyForces D) : BodyForces D :=
  bodyForces.addInto body.getIndex ⟨point.cross force, force⟩

/-! ## BodyActuator -/

/-- The actuator: its component name, its one connector, named "body", and the
model it belongs to once it has been attached (`none` before). -/
structure BodyActuator where
  name : String
  body : Connector
  model : Option Model
deriving DecidableEq, Repr

namespace BodyActuator

/-- The structural connector that `constructStructuralConnectors` declares:
named "body", no recorded target, unresolved. -/
def constructStructuralConnectors : Connector :=
  { name := "body", connected_to_name := "", connectee := none }

/-- Default constructor `BodyActuator()`. -/
def construct : BodyActuator :=
  { name := "", body := constructStructuralConnectors, model := none }

/-- Convenience constructor `BodyActuator(const Body&)`: the name of the body is
recorded in the connector, which stays unresolved. -/
def constructWithBody (body : Body) : BodyActuator :=
  { construct with body := construct.body.set_connected_to_name body.getName }

/-- Records the name of the target body (`setBodyName`). -/
def setBodyName (a : BodyActuator) (name : String) : BodyActuator :=
  { a with body := a.body.set_connected_to_name name }

/-- Recorded name of the target body (`getBodyName`). -/
def getBodyName (a : BodyActuator) : String :=
  a.body.get_connected_to_name

/-- Binds the connector to a body directly (`setBody`). -/
def setBody (a : BodyActuator) (body : Body) : BodyActuator :=
  { a with body := a.body.connect body }

/-- The body the actuator is applied to (`getBody`). -/
def getBody (a : BodyActuator) : Except Error Body :=
  a.body.getConnectee

/-- Modelled from the spec: `getModel()` (ModelComponent is not available): the
model the actuator was attached to, a failure for an actuator that belongs to
no model. -/
def getModel (a : BodyActuator) : Except Error Model :=
  match a.model with
  | some m => .ok m
  | none => .error .NoModel

/-- Modelled from the spec: `getControls(actuator, state)` of the control source
(Actuator is not available): the control vector supplied for this actuator at
this state. -/
def getControls {D : Type} (a : BodyActuator) (s : State D) : List D :=
  s.controls a.name

/-- The method `computeForce`.  The result is the outcome of the call and the
contents of `bodyForces` and `generalizedForces` after it.  Every step that can
fail comes before the first write, so a failing call leaves both buffers as
they were. -/
def computeForce {D : Type} [Zero D] [Add D] [Sub D] [Mul D] (a : BodyActuator) (s : State D)
    (bodyForces : BodyForces D) (generalizedForces : List D) :
    Except Error Unit × BodyForces D × List D :=
  let read : Except Error (Body × Vec3 D × Vec3 D × Vec3 D) := do
    let body ← a.body.getConnectee
    let model ← a.getModel
    let inSet ← BodySet.get model.getBodySet body.getName
    let body_mbi := inSet.getIndex
    let bodyOriginLocation := s.getBodyOriginLocation body_mbi
    let bodyForceInGround := a.getControls s
    let t0 ← Vector.get bodyForceInGround 0
    let t1 ← Vector.get bodyForceInGround 1
    let t2 ← Vector.get bodyForceInGround 2
    let f0 ← Vector.get bodyForceInGround 3
    let f1 ← Vector.get bodyForceInGround 4
    let f2 ← Vector.get bodyForceInGround 5
    pure (body, bodyOriginLocation, ⟨t0, t1, t2⟩, ⟨f0, f1, f2⟩)
  match read with
  | .error e => (.error e, bodyForces, generalizedForces)
  | .ok (body, bodyOriginLocation, torqueVec_G, forceVec_G) =>
    (.ok (),
      applyForceToPoint s body bodyOriginLocation forceVec_G
        (applyTorque s body torqueVec_G bodyForces),
      generalizedForces)

/-- The method `getPower`: the loop adds `bodyForceVals[i] * bodyVelocityVec[i]`
for `i = 0, ..., 5`, in that order, to `power`, which starts at zero.  The
products and the sums are those of `D`: with `D = Double` each of them is
rounded as the C++ operation is. -/
def getPower {D : Type} [Zero D] [Add D] [Mul D] (a : BodyActuator) (s : State D) :
    Except Error D := do
  let body ← a.body.getConnectee
  let model ← a.getModel
  let inSet ← BodySet.get model.getBodySet body.getName
  let body_mbi := inSet.getIndex
  let bodySpatialVelocities := s.getBodyVelocity body_mbi
  let bodyVelocityVec : List D :=
    [bodySpatialVelocities.rot.x, bodySpatialVelocities.rot.y, bodySpatialVelocities.rot.z,
     bodySpatialVelocities.lin.x, bodySpatialVelocities.lin.y, bodySpatialVelocities.lin.z]
  let bodyForceVals := a.getControls s
  [0, 1, 2, 3, 4, 5].foldlM
    (fun power i => do
      let c ← Vector.get bodyForceVals i
      let v ← Vector.get bodyVelocityVec i
      pure (power + c * v))
    (0 : D)

/-- Modelled from the spec: the attachment behaviour of the base classes,
`Super::connectToModel` (Actuator, Force, ModelComponent and Component are not
available).  The actuator becomes part of the model and its connector is
resolved against the registry of the model.  When the name is found the
connector is bound to that body; when it is not, the call fails with the
ReferenceResolutionError and the actuator is left with an unresolved connector,
the Invalid state.  The result is the outcome and the actuator after the
call. -/
def Super.connectToModel (a : BodyActuator) (model : Model) :
    Except Error Unit × BodyActuator :=
  match a.body.resolve a.name model.getBodySet with
  | .ok c => (.ok (), { a with model := some model, body := c })
  | .error e => (.error e, { a with model := some model, body := a.body.disconnect })

/-- The method `connectToModel`: nothing but the call of the base class. -/
def connectToModel (a : BodyActuator) (model : Model) : Except Error Unit × BodyActuator :=
  Super.connectToModel a model

/-- The state Ready: the actuator belongs to a model and its connector is
resolved to the body the model has under that name. -/
def Ready (a : BodyActuator) : Prop :=
  ∃ m b, a.model = some m ∧ a.body.connectee = some b ∧
    BodySet.get m.getBodySet b.getName = .ok b

end BodyActuator

/-! ## The end-to-end scenario

A model with one body named "torso" next to the ground, and actuators attached
to it; the data the closed statements below are evaluated on. -/

namespace Scenario

/-- The body "torso", at index 1 of the body table. -/
def torso : Body := ⟨"torso", 1⟩

/-- A second body, "pelvis", at index 2. -/
def pelvis : Body := ⟨"pelvis", 2⟩

/-- The model: ground, torso and pelvis. -/
def model : Model := ⟨[⟨"ground", 0⟩, torso, pelvis]⟩

/-- An actuator built for "torso" with the convenience constructor and attached
to the model. -/
def actuator : BodyActuator :=
  (BodyActuator.connectToModel (BodyActuator.constructWithBody torso) model).2

/-- A second actuator on "torso", with its own component name. -/
def actuatorB : BodyActuator :=
  (BodyActuator.connectToModel
    { BodyActuator.constructWithBody torso with name := "B" } model).2

/-- The empty accumulator. -/
def noForces : BodyForces ℚ := fun _ => 0

/-- A state with "torso" at (1,0,0) and at rest; the control source supplies
`controls` to every actuator. -/
def atRest (controls : List ℚ) : State ℚ :=
  { bodyOriginLocation := fun i => if i = 1 then ⟨1, 0, 0⟩ else 0
    bodyVelocity := fun _ => 0
    controls := fun _ => controls }

/-- A state with "torso" at (1,0,0) turning about the x axis with angular
velocity (1,0,0); the control source supplies `controls` to every actuator. -/
def turning (controls : List ℚ) : State ℚ :=
  { bodyOriginLocation := fun i => if i = 1 then ⟨1, 0, 0⟩ else 0
    bodyVelocity := fun i => if i = 1 then ⟨⟨1, 0, 0⟩, 0⟩ else 0
    controls := fun _ => controls }

/-- A state in which the control source supplies `cA` to the actuator with the
empty name and `cB` to every other one; "torso" is at (1,0,0), at rest. -/
def twoSources (cA cB : List ℚ) : State ℚ :=
  { bodyOriginLocation := fun i => if i = 1 then ⟨1, 0, 0⟩ else 0
    bodyVelocity := fun _ => 0
    controls := fun n => if n = "" then cA else cB }

/-- The state `turning` in `double` arithmetic: "torso" has the angular velocity
`(w, 0, 0)` and no linear velocity, every other body is at rest. -/
def turningDouble (w : Double) (controls : List Double) : State Double :=
  { bodyOriginLocation := fun i => if i = 1 then ⟨Double.ofInt 1, 0, 0⟩ else 0
    bodyVelocity := fun i => if i = 1 then ⟨⟨w, 0, 0⟩, 0⟩ else 0
    controls := fun _ => controls }

/-- The `double` 0.1, which is `7205759403792794 * 2^-56`. -/
def tenth : Double := .fin false 7205759403792794 (-56)

end Scenario

/-! ## Vector algebra -/

theorem Vec3.vec3_eq_iff (a b : Vec3 ℚ) : a = b ↔ a.x = b.x ∧ a.y = b.y ∧ a.z = b.z := by
  cases a; cases b; simp

theorem Vec3.add_x (a b : Vec3 ℚ) : (a + b).x = a.x + b.x := rfl

theorem Vec3.add_y (a b : Vec3 ℚ) : (a + b).y = a.y + b.y := rfl

theorem Vec3.add_z (a b : Vec3 ℚ) : (a + b).z = a.z + b.z := rfl

theorem Vec3.zero_x : (0 : Vec3 ℚ).x = 0 := rfl

theorem Vec3.zero_y : (0 : Vec3 ℚ).y = 0 := rfl

theorem Vec3.zero_z : (0 : Vec3 ℚ).z = 0 := rfl

theorem Vec3.vadd_zero (a : Vec3 ℚ) : a + 0 = a := by
  simp [Vec3.vec3_eq_iff, Vec3.add_x, Vec3.add_y, Vec3.add_z, Vec3.zero_x, Vec3.zero_y, Vec3.zero_z]

theorem Vec3.vadd_comm (a b : Vec3 ℚ) : a + b = b + a := by
  simp only [Vec3.vec3_eq_iff, Vec3.add_x, Vec3.add_y, Vec3.add_z]
  exact ⟨add_comm _ _, add_comm _ _, add_comm _ _⟩

theorem Vec3.vadd_assoc (a b c : Vec3 ℚ) : a + b + c = a + (b + c) := by
  simp only [Vec3.vec3_eq_iff, Vec3.add_x, Vec3.add_y, Vec3.add_z]
  exact ⟨add_assoc _ _ _, add_assoc _ _ _, add_assoc _ _ _⟩

theorem Vec3.cross_zero (p : Vec3 ℚ) : p.cross ⟨0, 0, 0⟩ = 0 := by
  simp [Vec3.vec3_eq_iff, Vec3.cross, Vec3.zero_x, Vec3.zero_y, Vec3.zero_z]

theorem SpatialVec.spatial_eq_iff (a b : SpatialVec ℚ) : a = b ↔ a.rot = b.rot ∧ a.lin = b.lin := by
  cases a; cases b; simp

theorem SpatialVec.add_rot (a b : SpatialVec ℚ) : (a + b).rot = a.rot + b.rot := rfl

theorem SpatialVec.add_lin (a b : SpatialVec ℚ) : (a + b).lin = a.lin + b.lin := rfl

theorem SpatialVec.zero_rot : (0 : SpatialVec ℚ).rot = 0 := rfl

theorem SpatialVec.zero_lin : (0 : SpatialVec ℚ).lin = 0 := rfl

theorem SpatialVec.sadd_zero (a : SpatialVec ℚ) : a + 0 = a := by
  simp [SpatialVec.spatial_eq_iff, SpatialVec.add_rot, SpatialVec.add_lin, SpatialVec.zero_rot,
    SpatialVec.zero_lin, Vec3.vadd_zero]

theorem SpatialVec.szero_add (a : SpatialVec ℚ) : 0 + a = a := by
  simp [SpatialVec.spatial_eq_iff, SpatialVec.add_rot, SpatialVec.add_lin, SpatialVec.zero_rot,
    SpatialVec.zero_lin, Vec3.vadd_comm 0, Vec3.vadd_zero]

theorem SpatialVec.sadd_comm (a b : SpatialVec ℚ) : a + b = b + a := by
  simp only [SpatialVec.spatial_eq_iff, SpatialVec.add_rot, SpatialVec.add_lin]
  exact ⟨Vec3.vadd_comm _ _, Vec3.vadd_comm _ _⟩

theorem SpatialVec.sadd_assoc (a b c : SpatialVec ℚ) : a + b + c = a + (b + c) := by
  simp only [SpatialVec.spatial_eq_iff, SpatialVec.add_rot, SpatialVec.add_lin]
  exact ⟨Vec3.vadd_assoc _ _ _, Vec3.vadd_assoc _ _ _⟩

/-! ## The accumulator -/

theorem BodyForces.addInto_same (acc : BodyForces ℚ) (i : Nat) (v : SpatialVec ℚ) :
    acc.addInto i v i = acc i + v := by
  simp [BodyForces.addInto]

theorem BodyForces.addInto_other (acc : BodyForces ℚ) (i j : Nat) (v : SpatialVec ℚ) (h : j ≠ i) :
    acc.addInto i v j = acc j := by
  simp [BodyForces.addInto, h]

theorem BodyForces.addInto_zero (acc : BodyForces ℚ) (i : Nat) : acc.addInto i ⟨0, 0⟩ = acc := by
  funext j
  by_cases h : j = i
  · subst h
    rw [BodyForces.addInto_same]
    exact SpatialVec.sadd_zero _
  · exact BodyForces.addInto_other acc i j _ h

theorem BodyForces.addInto_addInto (acc : BodyForces ℚ) (i : Nat) (u v : SpatialVec ℚ) :
    (acc.addInto i u).addInto i v = acc.addInto i (u + v) := by
  funext j
  by_cases h : j = i
  · subst h
    simp only [BodyForces.addInto_same]
    exact SpatialVec.sadd_assoc _ _ _
  · simp only [BodyForces.addInto_other _ _ _ _ h]

/-! ## Lookup by name -/

theorem BodySet.find_eq_none (bodies : List Body) (n : String)
    (h : ∀ b ∈ bodies, b.getName ≠ n) : bodies.find? (fun b => b.name == n) = none := by
  rw [List.find?_eq_none]
  intro b hb
  have := h b hb
  simpa [Body.getName] using this

theorem BodySet.find_of_mem (bodies : List Body) (b : Body) (hb : b ∈ bodies)
    (hu : (bodies.map Body.getName).Nodup) :
    bodies.find? (fun x => x.name == b.getName) = some b := by
  induction bodies with
  | nil => cases hb
  | cons x xs ih =>
    rw [List.map_cons, List.nodup_cons] at hu
    rcases List.mem_cons.mp hb with h | h
    · subst h
      simp [List.find?_cons, Body.getName]
    · have hne : x.name ≠ b.getName := by
        intro e
        apply hu.1
        rw [List.mem_map]
        exact ⟨b, h, e.symm⟩
      have hne2 : (x.name == b.getName) = false := by simpa using hne
      rw [List.find?_cons, hne2]
      exact ih h hu.2

theorem BodySet.get_found_name (bodies : List Body) (n : String) (b : Body)
    (h : bodies.find? (fun x => x.name == n) = some b) :
    BodySet.get bodies b.getName = .ok b := by
  have hn : b.name = n := by
    have := List.find?_some h
    simpa using this
  simp [BodySet.get, Body.getName, hn, h]

/-! ## Evaluation of the two methods on an attached actuator -/

theorem BodyActuator.Ready.lookup {a : BodyActuator} (hr : a.Ready) {b : Body}
    (hb : a.body.connectee = some b) :
    ∃ m, a.model = some m ∧ BodySet.get m.getBodySet b.getName = .ok b := by
  obtain ⟨m, b0, hm, hb0, hl⟩ := hr
  rw [hb0] at hb
  cases hb
  exact ⟨m, hm, hl⟩

theorem BodyActuator.computeForce_eq (a : BodyActuator) (s : State ℚ) (bodyForces : BodyForces ℚ)
    (generalizedForces : List ℚ) (m : Model) (b inSet : Body) (c0 c1 c2 c3 c4 c5 : ℚ)
    (rest : List ℚ) (hm : a.model = some m) (hb : a.body.connectee = some b)
    (hl : BodySet.get m.getBodySet b.getName = .ok inSet)
    (hc : a.getControls s = c0 :: c1 :: c2 :: c3 :: c4 :: c5 :: rest) :
    a.computeForce s bodyForces generalizedForces =
      (.ok (), applyForceToPoint s b (s.getBodyOriginLocation inSet.getIndex) ⟨c3, c4, c5⟩
        (applyTorque s b ⟨c0, c1, c2⟩ bodyForces), generalizedForces) := by
  simp [BodyActuator.computeForce, Connector.getConnectee, BodyActuator.getModel, hm, hb, hl, hc,
    Vector.get, bind, Except.bind, pure, Except.pure]

theorem BodyActuator.getPower_eq (a : BodyActuator) (s : State ℚ) (m : Model) (b inSet : Body)
    (c0 c1 c2 c3 c4 c5 : ℚ) (rest : List ℚ) (hm : a.model = some m)
    (hb : a.body.connectee = some b)
    (hl : BodySet.get m.getBodySet b.getName = .ok inSet)
    (hc : a.getControls s = c0 :: c1 :: c2 :: c3 :: c4 :: c5 :: rest) :
    a.getPower s = .ok
      (c0 * (s.getBodyVelocity inSet.getIndex).rot.x
        + c1 * (s.getBodyVelocity inSet.getIndex).rot.y
        + c2 * (s.getBodyVelocity inSet.getIndex).rot.z
        + c3 * (s.getBodyVelocity inSet.getIndex).lin.x
        + c4 * (s.getBodyVelocity inSet.getIndex).lin.y
        + c5 * (s.getBodyVelocity inSet.getIndex).lin.z) := by
  simp [BodyActuator.getPower, Connector.getConnectee, BodyActuator.getModel, hm, hb, hl, hc,
    Vector.get, bind, Except.bind, pure, Except.pure, List.foldlM]

theorem Scenario.actuator_ready : Scenario.actuator.Ready :=
  ⟨Scenario.model, Scenario.torso, rfl, rfl, rfl⟩

theorem Scenario.actuatorB_ready : Scenario.actuatorB.Ready :=
  ⟨Scenario.model, Scenario.torso, rfl, rfl, rfl⟩

theorem Vector.six_entries (l : List ℚ) (h : 6 ≤ l.length) :
    ∃ c0 c1 c2 c3 c4 c5 rest, l = c0 :: c1 :: c2 :: c3 :: c4 :: c5 :: rest := by
  match l, h with
  | c0 :: c1 :: c2 :: c3 :: c4 :: c5 :: rest, _ => exact ⟨c0, c1, c2, c3, c4, c5, rest, rfl⟩
  | [], h => simp at h
  | [_], h => simp at h
  | [_, _], h => simp at h
  | [_, _, _], h => simp at h
  | [_, _, _, _], h => simp at h
  | [_, _, _, _, _], h => simp at h

theorem BodyActuator.computeForce_contribution (a : BodyActuator) (s : State ℚ) (b : Body)
    (hr : a.Ready) (hb : a.body.connectee = some b) (hc : 6 ≤ (a.getControls s).length) :
    ∃ c : SpatialVec ℚ, ∀ (acc : BodyForces ℚ) (gf : List ℚ),
      a.computeForce s acc gf = (.ok (), acc.addInto b.getIndex c, gf) := by
  obtain ⟨m, hm, hl⟩ := hr.lookup hb
  obtain ⟨c0, c1, c2, c3, c4, c5, rest, hl6⟩ := Vector.six_entries _ hc
  refine ⟨⟨⟨c0, c1, c2⟩, 0⟩ + ⟨(s.getBodyOriginLocation b.getIndex).cross ⟨c3, c4, c5⟩,
    ⟨c3, c4, c5⟩⟩, ?_⟩
  intro acc gf
  rw [BodyActuator.computeForce_eq a s acc gf m b b c0 c1 c2 c3 c4 c5 rest hm hb hl hl6]
  simp only [applyForceToPoint, applyTorque]
  rw [BodyForces.addInto_addInto]

/-! ## Failures -/

theorem Vector.read_ne_size (v : List ℚ) (i : Nat) :
    Vector.get v i ≠ .error .ControlVectorSizeError := by
  unfold Vector.get
  split <;> simp

theorem bind_ne_size {α β : Type} (x : Except Error α) (f : α → Except Error β)
    (hx : x ≠ .error .ControlVectorSizeError) (hf : ∀ v, f v ≠ .error .ControlVectorSizeError) :
    (x >>= f) ≠ .error .ControlVectorSizeError := by
  cases x with
  | error e => simpa [bind, Except.bind] using hx
  | ok v => simpa [bind, Except.bind] using hf v

theorem pure_ne_size {α : Type} (v : α) :
    (pure v : Except Error α) ≠ .error .ControlVectorSizeError := by
  simp [pure, Except.pure]

theorem foldlM_ne_size {α : Type} (f : ℚ → α → Except Error ℚ)
    (hf : ∀ p i, f p i ≠ .error .ControlVectorSizeError) (l : List α) (init : ℚ) :
    l.foldlM f init ≠ .error .ControlVectorSizeError := by
  induction l generalizing init with
  | nil => exact pure_ne_size init
  | cons i l ih =>
    rw [List.foldlM_cons]
    exact bind_ne_size _ _ (hf init i) (fun p => ih p)

theorem Connector.getConnectee_ne_size (c : Connector) :
    c.getConnectee ≠ .error .ControlVectorSizeError := by
  unfold Connector.getConnectee
  split <;> simp

theorem BodyActuator.getModel_ne_size (a : BodyActuator) :
    a.getModel ≠ .error .ControlVectorSizeError := by
  unfold BodyActuator.getModel
  split <;> simp

theorem BodySet.lookup_ne_size (bodies : List Body) (n : String) :
    BodySet.get bodies n ≠ .error .ControlVectorSizeError := by
  unfold BodySet.get
  split <;> simp

theorem BodyActuator.computeForce_ne_size (a : BodyActuator) (s : State ℚ)
    (bodyForces : BodyForces ℚ) (generalizedForces : List ℚ) :
    (a.computeForce s bodyForces generalizedForces).1 ≠ .error .ControlVectorSizeError := by
  unfold BodyActuator.computeForce
  simp only []
  split
  · rename_i e he
    intro h
    simp only [Except.error.injEq] at h
    rw [h] at he
    revert he
    repeat' first
      | exact Connector.getConnectee_ne_size _
      | exact BodyActuator.getModel_ne_size _
      | exact BodySet.lookup_ne_size _ _
      | exact Vector.read_ne_size _ _
      | exact pure_ne_size _
      | refine bind_ne_size _ _ ?_ (fun _ => ?_)
  · simp

theorem BodyActuator.getPower_ne_size (a : BodyActuator) (s : State ℚ) :
    a.getPower s ≠ .error .ControlVectorSizeError := by
  unfold BodyActuator.getPower
  repeat' first
    | exact Connector.getConnectee_ne_size _
    | exact BodyActuator.getModel_ne_size _
    | exact BodySet.lookup_ne_size _ _
    | exact Vector.read_ne_size _ _
    | exact pure_ne_size _
    | refine foldlM_ne_size _ (fun _ _ => ?_) _ _
    | refine bind_ne_size _ _ ?_ (fun _ => ?_)

theorem BodyActuator.computeForce_unchanged_or_ok (a : BodyActuator) (s : State ℚ)
    (bodyForces : BodyForces ℚ) (generalizedForces : List ℚ) :
    (a.computeForce s bodyForces generalizedForces).1 = .ok () ∨
    (a.computeForce s bodyForces generalizedForces).2 = (bodyForces, generalizedForces) := by
  unfold BodyActuator.computeForce
  simp only []
  split
  · right; rfl
  · left; rfl

theorem BodyActuator.computeForce_ok_controls (a : BodyActuator) (s : State ℚ)
    (bodyForces : BodyForces ℚ) (generalizedForces : List ℚ)
    (h : (a.computeForce s bodyForces generalizedForces).1 = .ok ()) :
    6 ≤ (a.getControls s).length := by
  cases hb : a.body.connectee with
  | none =>
    simp [BodyActuator.computeForce, Connector.getConnectee, hb, bind, Except.bind] at h
  | some b =>
    cases hm : a.model with
    | none =>
      simp [BodyActuator.computeForce, Connector.getConnectee, BodyActuator.getModel, hb, hm,
        bind, Except.bind] at h
    | some m =>
      cases hl : BodySet.get m.getBodySet b.getName with
      | error e =>
        simp [BodyActuator.computeForce, Connector.getConnectee, BodyActuator.getModel, hb, hm,
          hl, bind, Except.bind] at h
      | ok inSet =>
        rcases hc : a.getControls s with
          _ | ⟨c0, _ | ⟨c1, _ | ⟨c2, _ | ⟨c3, _ | ⟨c4, _ | ⟨c5, rest⟩⟩⟩⟩⟩⟩
        all_goals first
          | (simp [BodyActuator.computeForce, Connector.getConnectee, BodyActuator.getModel, hb,
              hm, hl, hc, Vector.get, bind, Except.bind] at h; done)
          | simp

/-! ## The loop of `getPower` in any arithmetic, and zeros in `double` arithmetic -/

theorem BodyActuator.getPower_fold {D : Type} [Zero D] [Add D] [Mul D] (a : BodyActuator)
    (s : State D) (m : Model) (b inSet : Body) (c0 c1 c2 c3 c4 c5 : D) (rest : List D)
    (hm : a.model = some m) (hb : a.body.connectee = some b)
    (hl : BodySet.get m.getBodySet b.getName = .ok inSet)
    (hc : a.getControls s = c0 :: c1 :: c2 :: c3 :: c4 :: c5 :: rest) :
    a.getPower s = .ok
      (0 + c0 * (s.getBodyVelocity inSet.getIndex).rot.x
        + c1 * (s.getBodyVelocity inSet.getIndex).rot.y
        + c2 * (s.getBodyVelocity inSet.getIndex).rot.z
        + c3 * (s.getBodyVelocity inSet.getIndex).lin.x
        + c4 * (s.getBodyVelocity inSet.getIndex).lin.y
        + c5 * (s.getBodyVelocity inSet.getIndex).lin.z) := by
  simp [BodyActuator.getPower, Connector.getConnectee, BodyActuator.getModel, hm, hb, hl, hc,
    Vector.get, bind, Except.bind, pure, Except.pure, List.foldlM]

theorem Double.round_zero (neg : Bool) (e : Int) : Double.round neg 0 e = .fin neg 0 (-1074) := by
  simp [Double.round]

theorem Double.mul_zero_right (x y : Double) (hx : x.isFinite = true) (hy : y.isZero = true) :
    (x * y).isZero = true := by
  cases x with
  | nan => simp [Double.isFinite] at hx
  | inf s => simp [Double.isFinite] at hx
  | fin s m e =>
    cases y with
    | nan => simp [Double.isZero] at hy
    | inf t => simp [Double.isZero] at hy
    | fin t n f =>
      have hn : n = 0 := by simpa [Double.isZero] using hy
      subst hn
      show (Double.mul _ _).isZero = true
      simp [Double.mul, Double.round_zero, Double.isZero]

theorem Double.mul_zero_left (x y : Double) (hx : x.isZero = true) (hy : y.isFinite = true) :
    (x * y).isZero = true := by
  cases y with
  | nan => simp [Double.isFinite] at hy
  | inf s => simp [Double.isFinite] at hy
  | fin t n f =>
    cases x with
    | nan => simp [Double.isZero] at hx
    | inf t => simp [Double.isZero] at hx
    | fin s m e =>
      have hn : m = 0 := by simpa [Double.isZero] using hx
      subst hn
      show (Double.mul _ _).isZero = true
      simp [Double.mul, Double.round_zero, Double.isZero]

theorem Double.zero_add_zero (z : Double) (hz : z.isZero = true) : (0 : Double) + z = 0 := by
  cases z with
  | nan => simp [Double.isZero] at hz
  | inf t => simp [Double.isZero] at hz
  | fin t n f =>
    have hn : n = 0 := by simpa [Double.isZero] using hz
    subst hn
    show Double.add (.fin false 0 (-1074)) _ = .fin false 0 (-1074)
    cases t <;> simp [Double.add, Double.signed]

/-! ## Claims -/

/-- C1.  Force-only case of `computeForce`: for a Ready actuator whose target
body `b` has its origin at `p` in the state, and controls `[0,0,0,fx,fy,fz]`,
the call succeeds, the accumulator after the call is the one obtained by adding
the point force `(fx,fy,fz)` at `p` on `b`, and the slot of `b` has received the
moment `p × (fx,fy,fz)` and the force `(fx,fy,fz)`. -/
theorem computeForce_force_only (a : BodyActuator) (s : State ℚ) (bodyForces : BodyForces ℚ)
    (generalizedForces : List ℚ) (b : Body) (p : Vec3 ℚ) (fx fy fz : ℚ)
    (hr : a.Ready) (hb : a.body.connectee = some b)
    (hp : s.getBodyOriginLocation b.getIndex = p)
    (hc : a.getControls s = [0, 0, 0, fx, fy, fz]) :
    (a.computeForce s bodyForces generalizedForces).1 = .ok () ∧
    (a.computeForce s bodyForces generalizedForces).2.1
        = applyForceToPoint s b p ⟨fx, fy, fz⟩ bodyForces ∧
    (a.computeForce s bodyForces generalizedForces).2.1 b.getIndex
        = bodyForces b.getIndex + ⟨p.cross ⟨fx, fy, fz⟩, ⟨fx, fy, fz⟩⟩ := by
  obtain ⟨m, hm, hl⟩ := hr.lookup hb
  rw [BodyActuator.computeForce_eq a s bodyForces generalizedForces m b b 0 0 0 fx fy fz []
    hm hb hl hc, hp]
  have h0 : applyTorque s b ⟨0, 0, 0⟩ bodyForces = bodyForces :=
    BodyForces.addInto_zero bodyForces b.getIndex
  rw [h0]
  exact ⟨rfl, rfl, BodyForces.addInto_same _ _ _⟩

/-- C1, witness: "torso" at (1,0,0) with controls (0,0,0,0,0,10) receives the
force (0,0,10) and the moment (0,-10,0). -/
theorem computeForce_force_only_witness :
    Scenario.actuator.Ready ∧
    (Scenario.actuator.computeForce (Scenario.atRest [0, 0, 0, 0, 0, 10])
      Scenario.noForces []).2.1 1 = ⟨⟨0, -10, 0⟩, ⟨0, 0, 10⟩⟩ := by
  refine ⟨Scenario.actuator_ready, ?_⟩
  have h := (computeForce_force_only Scenario.actuator (Scenario.atRest [0, 0, 0, 0, 0, 10])
    Scenario.noForces [] Scenario.torso ⟨1, 0, 0⟩ 0 0 10 Scenario.actuator_ready rfl rfl rfl).2.2
  have e : Scenario.torso.getIndex = 1 := rfl
  rw [e] at h
  rw [h]
  simp [Scenario.noForces, SpatialVec.spatial_eq_iff, SpatialVec.add_rot, SpatialVec.add_lin,
    SpatialVec.zero_rot, SpatialVec.zero_lin, Vec3.vec3_eq_iff, Vec3.add_x, Vec3.add_y, Vec3.add_z,
    Vec3.zero_x, Vec3.zero_y, Vec3.zero_z, Vec3.cross]

/-- C2, counterexample.  In `double` arithmetic the power is not always the
value the formula denotes.  With "torso" at rest and the controls
(inf,0,0,0,0,0), `getPower` returns not-a-number, not 0.  With the angular
velocity (3,0,0) and the controls (0.1,0,0,0,0,0) it returns
`5404319552844596 * 2^-54`, which is not the exact dot product of these
values. -/
theorem getPower_nan_and_rounding :
    Scenario.actuator.Ready ∧
    ((Scenario.turningDouble 0 [.inf false, 0, 0, 0, 0, 0]).getBodyVelocity
        Scenario.torso.getIndex = 0 ∧
      Scenario.actuator.getPower (Scenario.turningDouble 0 [.inf false, 0, 0, 0, 0, 0])
        = .ok .nan ∧
      Double.nan ≠ 0) ∧
    (Scenario.actuator.getPower
        (Scenario.turningDouble (Double.ofInt 3) [Scenario.tenth, 0, 0, 0, 0, 0])
        = .ok (.fin false 5404319552844596 (-54)) ∧
      Double.toRat? (.fin false 5404319552844596 (-54))
        ≠ Double.exactDot [Scenario.tenth, 0, 0, 0, 0, 0]
            ((Scenario.turningDouble (Double.ofInt 3)
              [Scenario.tenth, 0, 0, 0, 0, 0]).getBodyVelocity
                Scenario.torso.getIndex).components) := by
  refine ⟨Scenario.actuator_ready, ⟨by decide!, ?_, by decide⟩, ?_, ?_⟩
  · rw [BodyActuator.getPower_fold Scenario.actuator
      (Scenario.turningDouble 0 [.inf false, 0, 0, 0, 0, 0]) Scenario.model Scenario.torso
      Scenario.torso (.inf false) 0 0 0 0 0 [] rfl rfl rfl rfl]
    exact congrArg Except.ok (by decide!)
  · rw [BodyActuator.getPower_fold Scenario.actuator
      (Scenario.turningDouble (Double.ofInt 3) [Scenario.tenth, 0, 0, 0, 0, 0]) Scenario.model
      Scenario.torso Scenario.torso Scenario.tenth 0 0 0 0 0 [] rfl rfl rfl rfl]
    exact congrArg Except.ok (by decide!)
  · have h3 : Double.ofInt 3 = .fin false 6755399441055744 (-51) := by decide
    have hv : ((Scenario.turningDouble (Double.ofInt 3)
        [Scenario.tenth, 0, 0, 0, 0, 0]).getBodyVelocity Scenario.torso.getIndex).components
        = [.fin false 6755399441055744 (-51), .fin false 0 (-1074), .fin false 0 (-1074),
            .fin false 0 (-1074), .fin false 0 (-1074), .fin false 0 (-1074)] := by
      rw [h3]; rfl
    have hz : (0 : Double) = .fin false 0 (-1074) := rfl
    rw [hv, hz]
    simp only [Double.exactDot, Double.toRat?, Scenario.tenth, bind, Option.bind, pure]
    norm_num

/-- C2, amended.  For a Ready actuator with target body `b` and the controls
`[c0,...,c5]`, `getPower` returns the sum the loop accumulates in `double`
arithmetic: `power` starts at 0 and `c[i] * v[i]` is added for `i = 0,...,5`
in that order, every product and every sum rounded, where `v` is the angular
velocity of `b` followed by the linear velocity of its origin.  The result is 0
when the six velocity components are zero and the controls are finite, and when
the six controls are zero and the velocity components are finite. -/
theorem getPower_double_sum (a : BodyActuator) (s : State Double) (b : Body)
    (c0 c1 c2 c3 c4 c5 : Double)
    (hr : a.Ready) (hb : a.body.connectee = some b)
    (hc : a.getControls s = [c0, c1, c2, c3, c4, c5]) :
    a.getPower s = .ok
      (0 + c0 * (s.getBodyVelocity b.getIndex).rot.x
        + c1 * (s.getBodyVelocity b.getIndex).rot.y
        + c2 * (s.getBodyVelocity b.getIndex).rot.z
        + c3 * (s.getBodyVelocity b.getIndex).lin.x
        + c4 * (s.getBodyVelocity b.getIndex).lin.y
        + c5 * (s.getBodyVelocity b.getIndex).lin.z) ∧
    ((s.getBodyVelocity b.getIndex).components.all Double.isZero = true →
      [c0, c1, c2, c3, c4, c5].all Double.isFinite = true → a.getPower s = .ok 0) ∧
    ([c0, c1, c2, c3, c4, c5].all Double.isZero = true →
      (s.getBodyVelocity b.getIndex).components.all Double.isFinite = true →
      a.getPower s = .ok 0) := by
  obtain ⟨m, hm, hl⟩ := hr.lookup hb
  have h := BodyActuator.getPower_fold a s m b b c0 c1 c2 c3 c4 c5 [] hm hb hl hc
  refine ⟨h, ?_, ?_⟩
  · intro hv hf
    simp only [SpatialVec.components, List.all_cons, List.all_nil, Bool.and_true,
      Bool.and_eq_true] at hv hf
    obtain ⟨v0, v1, v2, v3, v4, v5⟩ := hv
    obtain ⟨f0, f1, f2, f3, f4, f5⟩ := hf
    rw [h, Double.zero_add_zero _ (Double.mul_zero_right _ _ f0 v0),
      Double.zero_add_zero _ (Double.mul_zero_right _ _ f1 v1),
      Double.zero_add_zero _ (Double.mul_zero_right _ _ f2 v2),
      Double.zero_add_zero _ (Double.mul_zero_right _ _ f3 v3),
      Double.zero_add_zero _ (Double.mul_zero_right _ _ f4 v4),
      Double.zero_add_zero _ (Double.mul_zero_right _ _ f5 v5)]
  · intro hz hf
    simp only [SpatialVec.components, List.all_cons, List.all_nil, Bool.and_true,
      Bool.and_eq_true] at hz hf
    obtain ⟨z0, z1, z2, z3, z4, z5⟩ := hz
    obtain ⟨f0, f1, f2, f3, f4, f5⟩ := hf
    rw [h, Double.zero_add_zero _ (Double.mul_zero_left _ _ z0 f0),
      Double.zero_add_zero _ (Double.mul_zero_left _ _ z1 f1),
      Double.zero_add_zero _ (Double.mul_zero_left _ _ z2 f2),
      Double.zero_add_zero _ (Double.mul_zero_left _ _ z3 f3),
      Double.zero_add_zero _ (Double.mul_zero_left _ _ z4 f4),
      Double.zero_add_zero _ (Double.mul_zero_left _ _ z5 f5)]

/-- C2 amended, witness: the angular velocity (1,0,0), no linear velocity and
the controls (2,0,0,0,0,0) give exactly 2; a body at rest with the finite
controls (2,0.1,0,0,0,-7) gives 0. -/
theorem getPower_double_sum_witness :
    Scenario.actuator.Ready ∧
    Scenario.actuator.getPower
        (Scenario.turningDouble (Double.ofInt 1) [Double.ofInt 2, 0, 0, 0, 0, 0])
      = .ok (Double.ofInt 2) ∧
    Scenario.actuator.getPower
        (Scenario.turningDouble 0 [Double.ofInt 2, Scenario.tenth, 0, 0, 0, Double.ofInt (-7)])
      = .ok 0 := by
  refine ⟨Scenario.actuator_ready, ?_, ?_⟩
  · rw [(getPower_double_sum Scenario.actuator
      (Scenario.turningDouble (Double.ofInt 1) [Double.ofInt 2, 0, 0, 0, 0, 0]) Scenario.torso
      (Double.ofInt 2) 0 0 0 0 0 Scenario.actuator_ready rfl rfl).1]
    exact congrArg Except.ok (by decide!)
  · exact (getPower_double_sum Scenario.actuator
      (Scenario.turningDouble 0 [Double.ofInt 2, Scenario.tenth, 0, 0, 0, Double.ofInt (-7)])
      Scenario.torso (Double.ofInt 2) Scenario.tenth 0 0 0 (Double.ofInt (-7))
      Scenario.actuator_ready rfl rfl).2.1 (by decide!) (by decide!)

/-- C3.  Torque-only case of `computeForce`: for a Ready actuator with target
body `b` and controls `[tx,ty,tz,0,0,0]` the call adds the couple `(tx,ty,tz)`
to the rotational part of the slot of `b` and nothing to its translational
part, and the outcome is the same in every other state that supplies the same
controls, wherever the body is. -/
theorem computeForce_torque_only (a : BodyActuator) (s s2 : State ℚ) (bodyForces : BodyForces ℚ)
    (generalizedForces : List ℚ) (b : Body) (tx ty tz : ℚ)
    (hr : a.Ready) (hb : a.body.connectee = some b)
    (hc : a.getControls s = [tx, ty, tz, 0, 0, 0])
    (hc2 : a.getControls s2 = [tx, ty, tz, 0, 0, 0]) :
    a.computeForce s bodyForces generalizedForces
        = (.ok (), bodyForces.addInto b.getIndex ⟨⟨tx, ty, tz⟩, 0⟩, generalizedForces) ∧
    (a.computeForce s bodyForces generalizedForces).2.1 b.getIndex
        = ⟨(bodyForces b.getIndex).rot + ⟨tx, ty, tz⟩, (bodyForces b.getIndex).lin⟩ ∧
    a.computeForce s2 bodyForces generalizedForces
        = a.computeForce s bodyForces generalizedForces := by
  obtain ⟨m, hm, hl⟩ := hr.lookup hb
  have key : ∀ t : State ℚ, a.getControls t = [tx, ty, tz, 0, 0, 0] →
      a.computeForce t bodyForces generalizedForces
        = (.ok (), bodyForces.addInto b.getIndex ⟨⟨tx, ty, tz⟩, 0⟩, generalizedForces) := by
    intro t ht
    rw [BodyActuator.computeForce_eq a t bodyForces generalizedForces m b b tx ty tz 0 0 0 []
      hm hb hl ht]
    simp only [applyForceToPoint, applyTorque, Vec3.cross_zero]
    rw [BodyForces.addInto_addInto]
    have e : (⟨⟨tx, ty, tz⟩, 0⟩ : SpatialVec ℚ) + ⟨0, ⟨0, 0, 0⟩⟩ = ⟨⟨tx, ty, tz⟩, 0⟩ :=
      SpatialVec.sadd_zero _
    rw [e]
  refine ⟨key s hc, ?_, ?_⟩
  · rw [key s hc]
    show bodyForces.addInto b.getIndex ⟨⟨tx, ty, tz⟩, 0⟩ b.getIndex = _
    rw [BodyForces.addInto_same]
    simp [SpatialVec.spatial_eq_iff, SpatialVec.add_rot, SpatialVec.add_lin, Vec3.vadd_zero]
  · rw [key s hc, key s2 hc2]

/-- C3, witness: the couple (1,2,3) on "torso", the same for the body at rest at
(1,0,0) and for the turning body. -/
theorem computeForce_torque_only_witness :
    Scenario.actuator.Ready ∧
    (Scenario.actuator.computeForce (Scenario.atRest [1, 2, 3, 0, 0, 0])
      Scenario.noForces []).2.1 1 = ⟨⟨1, 2, 3⟩, ⟨0, 0, 0⟩⟩ := by
  refine ⟨Scenario.actuator_ready, ?_⟩
  have h := (computeForce_torque_only Scenario.actuator (Scenario.atRest [1, 2, 3, 0, 0, 0])
    (Scenario.turning [1, 2, 3, 0, 0, 0]) Scenario.noForces [] Scenario.torso 1 2 3
    Scenario.actuator_ready rfl rfl rfl).2.1
  have e : Scenario.torso.getIndex = 1 := rfl
  rw [e] at h
  rw [h]
  simp [Scenario.noForces, SpatialVec.spatial_eq_iff, SpatialVec.zero_rot, SpatialVec.zero_lin,
    Vec3.vec3_eq_iff, Vec3.add_x, Vec3.add_y, Vec3.add_z, Vec3.zero_x, Vec3.zero_y, Vec3.zero_z]

/-- C4.  Additivity of `computeForce`: for two Ready actuators `A` and `B` on the
same body, whose control vectors have six entries, a call adds to the
accumulator what the actuator contributes alone (its result on the empty
accumulator) and overwrites nothing; `A` then `B` gives the initial accumulator
plus the sum of the two contributions, and `B` then `A` gives the same. -/
theorem computeForce_additive (A B : BodyActuator) (s : State ℚ) (bodyForces : BodyForces ℚ)
    (generalizedForces : List ℚ) (b : Body)
    (hA : A.Ready) (hB : B.Ready)
    (hAb : A.body.connectee = some b) (hBb : B.body.connectee = some b)
    (hcA : (A.getControls s).length = 6) (hcB : (B.getControls s).length = 6) :
    A.computeForce s bodyForces generalizedForces
      = (.ok (), fun i => bodyForces i
          + (A.computeForce s (fun _ => 0) generalizedForces).2.1 i, generalizedForces) ∧
    B.computeForce s (A.computeForce s bodyForces generalizedForces).2.1
        (A.computeForce s bodyForces generalizedForces).2.2
      = (.ok (), fun i => bodyForces i
          + ((A.computeForce s (fun _ => 0) generalizedForces).2.1 i
            + (B.computeForce s (fun _ => 0) generalizedForces).2.1 i), generalizedForces) ∧
    A.computeForce s (B.computeForce s bodyForces generalizedForces).2.1
        (B.computeForce s bodyForces generalizedForces).2.2
      = B.computeForce s (A.computeForce s bodyForces generalizedForces).2.1
        (A.computeForce s bodyForces generalizedForces).2.2 := by
  obtain ⟨cA, hcA2⟩ := BodyActuator.computeForce_contribution A s b hA hAb (le_of_eq hcA.symm)
  obtain ⟨cB, hcB2⟩ := BodyActuator.computeForce_contribution B s b hB hBb (le_of_eq hcB.symm)
  simp only [hcA2, hcB2]
  have hz : ∀ (c : SpatialVec ℚ) (i : Nat),
      BodyForces.addInto (fun _ => 0) b.getIndex c i = if i = b.getIndex then c else 0 := by
    intro c i
    by_cases h : i = b.getIndex
    · simp only [BodyForces.addInto, h, if_true, SpatialVec.szero_add]
    · simp only [BodyForces.addInto, h, if_false]
  refine ⟨?_, ?_, ?_⟩
  · refine Prod.ext rfl (Prod.ext ?_ rfl)
    funext i
    show bodyForces.addInto b.getIndex cA i = bodyForces i + _
    rw [hz]
    by_cases h : i = b.getIndex
    · simp only [BodyForces.addInto, h, if_true]
    · simp only [BodyForces.addInto, h, if_false, SpatialVec.sadd_zero]
  · refine Prod.ext rfl (Prod.ext ?_ rfl)
    funext i
    show (bodyForces.addInto b.getIndex cA).addInto b.getIndex cB i = bodyForces i + (_ + _)
    rw [hz, hz]
    by_cases h : i = b.getIndex
    · simp only [BodyForces.addInto, h, if_true, SpatialVec.sadd_assoc]
    · simp only [BodyForces.addInto, h, if_false, SpatialVec.sadd_zero]
  · refine Prod.ext rfl (Prod.ext ?_ rfl)
    show (bodyForces.addInto b.getIndex cB).addInto b.getIndex cA
      = (bodyForces.addInto b.getIndex cA).addInto b.getIndex cB
    rw [BodyForces.addInto_addInto, BodyForces.addInto_addInto, SpatialVec.sadd_comm]

/-- C4, witness: controls (0,0,0,0,0,10) for one actuator on "torso" and
(1,2,3,0,0,0) for the other, on an accumulator that holds (5,5,5),(7,7,7) in
every slot: in both orders the slot of "torso" ends with the moment (6,-3,8)
and the force (7,7,17). -/
theorem computeForce_additive_witness :
    Scenario.actuator.computeForce (Scenario.twoSources [0, 0, 0, 0, 0, 10] [1, 2, 3, 0, 0, 0])
        (Scenario.actuatorB.computeForce
          (Scenario.twoSources [0, 0, 0, 0, 0, 10] [1, 2, 3, 0, 0, 0])
          (fun _ => ⟨⟨5, 5, 5⟩, ⟨7, 7, 7⟩⟩) []).2.1
        (Scenario.actuatorB.computeForce
          (Scenario.twoSources [0, 0, 0, 0, 0, 10] [1, 2, 3, 0, 0, 0])
          (fun _ => ⟨⟨5, 5, 5⟩, ⟨7, 7, 7⟩⟩) []).2.2
      = Scenario.actuatorB.computeForce
        (Scenario.twoSources [0, 0, 0, 0, 0, 10] [1, 2, 3, 0, 0, 0])
        (Scenario.actuator.computeForce
          (Scenario.twoSources [0, 0, 0, 0, 0, 10] [1, 2, 3, 0, 0, 0])
          (fun _ => ⟨⟨5, 5, 5⟩, ⟨7, 7, 7⟩⟩) []).2.1
        (Scenario.actuator.computeForce
          (Scenario.twoSources [0, 0, 0, 0, 0, 10] [1, 2, 3, 0, 0, 0])
          (fun _ => ⟨⟨5, 5, 5⟩, ⟨7, 7, 7⟩⟩) []).2.2 ∧
    (Scenario.actuatorB.computeForce
        (Scenario.twoSources [0, 0, 0, 0, 0, 10] [1, 2, 3, 0, 0, 0])
        (Scenario.actuator.computeForce
          (Scenario.twoSources [0, 0, 0, 0, 0, 10] [1, 2, 3, 0, 0, 0])
          (fun _ => ⟨⟨5, 5, 5⟩, ⟨7, 7, 7⟩⟩) []).2.1
        (Scenario.actuator.computeForce
          (Scenario.twoSources [0, 0, 0, 0, 0, 10] [1, 2, 3, 0, 0, 0])
          (fun _ => ⟨⟨5, 5, 5⟩, ⟨7, 7, 7⟩⟩) []).2.2).2.1 1
      = ⟨⟨6, -3, 8⟩, ⟨7, 7, 17⟩⟩ := by
  have h := computeForce_additive Scenario.actuator Scenario.actuatorB
    (Scenario.twoSources [0, 0, 0, 0, 0, 10] [1, 2, 3, 0, 0, 0])
    (fun _ => ⟨⟨5, 5, 5⟩, ⟨7, 7, 7⟩⟩) [] Scenario.torso
    Scenario.actuator_ready Scenario.actuatorB_ready rfl rfl rfl rfl
  refine ⟨h.2.2, ?_⟩
  rw [h.2.1]
  rw [BodyActuator.computeForce_eq Scenario.actuator
      (Scenario.twoSources [0, 0, 0, 0, 0, 10] [1, 2, 3, 0, 0, 0]) _ _ Scenario.model
      Scenario.torso Scenario.torso 0 0 0 0 0 10 [] rfl rfl rfl rfl,
    BodyActuator.computeForce_eq Scenario.actuatorB
      (Scenario.twoSources [0, 0, 0, 0, 0, 10] [1, 2, 3, 0, 0, 0]) _ _ Scenario.model
      Scenario.torso Scenario.torso 1 2 3 0 0 0 [] rfl rfl rfl rfl]
  simp [applyForceToPoint, applyTorque, BodyForces.addInto, Scenario.torso, Body.getIndex,
    State.getBodyOriginLocation, Scenario.twoSources, SpatialVec.spatial_eq_iff, SpatialVec.add_rot,
    SpatialVec.add_lin, SpatialVec.zero_rot, SpatialVec.zero_lin, Vec3.vec3_eq_iff, Vec3.add_x,
    Vec3.add_y, Vec3.add_z, Vec3.zero_x, Vec3.zero_y, Vec3.zero_z, Vec3.cross]
  norm_num

/-- C5.  Guard before resolution: for an actuator whose connector is unresolved,
`computeForce` fails with the UnresolvedReferenceError and leaves `bodyForces`
and `generalizedForces` as they were, `getPower` fails with the same error, and
so does `getBody`: no body is substituted for the missing one. -/
theorem unresolved_guard (a : BodyActuator) (s : State ℚ) (bodyForces : BodyForces ℚ)
    (generalizedForces : List ℚ) (hu : a.body.connectee = none) :
    a.computeForce s bodyForces generalizedForces
      = (.error .UnresolvedReferenceError, bodyForces, generalizedForces) ∧
    a.getPower s = .error .UnresolvedReferenceError ∧
    a.getBody = .error .UnresolvedReferenceError := by
  simp [BodyActuator.computeForce, BodyActuator.getPower, BodyActuator.getBody,
    Connector.getConnectee, hu, bind, Except.bind]

/-- C5, witness: the actuator of the default constructor, never attached. -/
theorem unresolved_guard_witness :
    BodyActuator.construct.computeForce (Scenario.atRest [0, 0, 0, 0, 0, 10]) Scenario.noForces []
      = (.error .UnresolvedReferenceError, Scenario.noForces, []) ∧
    BodyActuator.construct.getPower (Scenario.atRest [0, 0, 0, 0, 0, 10])
      = .error .UnresolvedReferenceError ∧
    BodyActuator.construct.getBody = .error .UnresolvedReferenceError :=
  unresolved_guard BodyActuator.construct (Scenario.atRest [0, 0, 0, 0, 0, 10])
    Scenario.noForces [] rfl

/-- C6.  Resolution failure: when no body of the model carries the recorded
name, `connectToModel` fails with the ReferenceResolutionError that names the
actuator and the missing name; the actuator after the call is not Ready, and
`computeForce` and `getPower` are rejected on it in every state, with the
accumulator untouched. -/
theorem connectToModel_unknown_name (a : BodyActuator) (m : Model)
    (h : ∀ b ∈ m.getBodySet, b.getName ≠ a.getBodyName) :
    (a.connectToModel m).1 = .error (.ReferenceResolutionError a.name a.getBodyName) ∧
    ¬ (a.connectToModel m).2.Ready ∧
    ∀ (s : State ℚ) (bodyForces : BodyForces ℚ) (generalizedForces : List ℚ),
      (a.connectToModel m).2.computeForce s bodyForces generalizedForces
        = (.error .UnresolvedReferenceError, bodyForces, generalizedForces) ∧
      (a.connectToModel m).2.getPower s = .error .UnresolvedReferenceError := by
  have hf := BodySet.find_eq_none m.getBodySet a.getBodyName h
  have hpost : a.connectToModel m
      = (.error (.ReferenceResolutionError a.name a.getBodyName),
          { a with model := some m, body := a.body.disconnect }) := by
    simp only [BodyActuator.getBodyName, Connector.get_connected_to_name] at hf
    simp [BodyActuator.connectToModel, BodyActuator.Super.connectToModel, Connector.resolve, hf,
      BodyActuator.getBodyName, Connector.get_connected_to_name]
  rw [hpost]
  refine ⟨rfl, ?_, ?_⟩
  · rintro ⟨m2, b, _, hb, _⟩
    simp [Connector.disconnect] at hb
  · intro s bodyForces generalizedForces
    simp [BodyActuator.computeForce, BodyActuator.getPower, Connector.getConnectee,
      Connector.disconnect, bind, Except.bind]

/-- C6, witness: the name "ghost" against the model of ground, torso and
pelvis. -/
theorem connectToModel_unknown_name_witness :
    ((BodyActuator.construct.setBodyName "ghost").connectToModel Scenario.model).1
      = .error (.ReferenceResolutionError "" "ghost") ∧
    ((BodyActuator.construct.setBodyName "ghost").connectToModel Scenario.model).2.getPower
      (Scenario.atRest [0, 0, 0, 0, 0, 10]) = .error .UnresolvedReferenceError :=
  have h := connectToModel_unknown_name (BodyActuator.construct.setBodyName "ghost")
    Scenario.model (by decide)
  ⟨h.1, (h.2.2 (Scenario.atRest [0, 0, 0, 0, 0, 10]) Scenario.noForces []).2⟩

/-- C7.  Resolution success: in a model whose bodies have distinct names and
that contains `b`, an actuator that recorded the name of `b`, with
`setBodyName` or through the convenience constructor, and is then attached, is
resolved to `b` itself: `getBody` returns `b`, `getBodyName` still returns the
name of `b`, and the actuator is Ready. -/
theorem connectToModel_resolves (a : BodyActuator) (m : Model) (b : Body)
    (hb : b ∈ m.getBodySet) (hu : (m.getBodySet.map Body.getName).Nodup) :
    (((a.setBodyName b.getName).connectToModel m).1 = .ok () ∧
      ((a.setBodyName b.getName).connectToModel m).2.getBody = .ok b ∧
      ((a.setBodyName b.getName).connectToModel m).2.getBodyName = b.getName ∧
      ((a.setBodyName b.getName).connectToModel m).2.Ready) ∧
    (((BodyActuator.constructWithBody b).connectToModel m).1 = .ok () ∧
      ((BodyActuator.constructWithBody b).connectToModel m).2.getBody = .ok b ∧
      ((BodyActuator.constructWithBody b).connectToModel m).2.getBodyName = b.getName ∧
      ((BodyActuator.constructWithBody b).connectToModel m).2.Ready) := by
  have hf := BodySet.find_of_mem m.getBodySet b hb hu
  have hg := BodySet.get_found_name m.getBodySet b.getName b hf
  have key : ∀ x : BodyActuator, x.getBodyName = b.getName →
      (x.connectToModel m).1 = .ok () ∧ (x.connectToModel m).2.getBody = .ok b ∧
      (x.connectToModel m).2.getBodyName = b.getName ∧ (x.connectToModel m).2.Ready := by
    intro x hx
    simp only [BodyActuator.getBodyName, Connector.get_connected_to_name] at hx
    have hpost : x.connectToModel m
        = (.ok (), { x with model := some m, body := x.body.connect b }) := by
      simp [BodyActuator.connectToModel, BodyActuator.Super.connectToModel, Connector.resolve,
        hx, hf]
    rw [hpost]
    refine ⟨rfl, ?_, ?_, ?_⟩
    · simp [BodyActuator.getBody, Connector.getConnectee, Connector.connect]
    · simpa [BodyActuator.getBodyName, Connector.get_connected_to_name, Connector.connect]
        using hx
    · exact ⟨m, b, rfl, rfl, hg⟩
  exact ⟨key _ rfl, key _ rfl⟩

/-- C7, witness: "pelvis" in the model of ground, torso and pelvis. -/
theorem connectToModel_resolves_witness :
    ((BodyActuator.construct.setBodyName "pelvis").connectToModel Scenario.model).2.getBody
      = .ok Scenario.pelvis ∧
    ((BodyActuator.constructWithBody Scenario.pelvis).connectToModel Scenario.model).2.getBodyName
      = "pelvis" :=
  have h := connectToModel_resolves BodyActuator.construct Scenario.model Scenario.pelvis
    (by decide) (by decide)
  ⟨h.1.2.1, h.2.2.2.1⟩

/-- C8, counterexample: a Ready actuator whose control source returns seven
entries.  `computeForce` succeeds and applies the torque (2,0,0) and the force
(0,0,10) at (1,0,0), and `getPower` returns 2: neither call fails with a
ControlVectorSizeError. -/
theorem control_size_unchecked :
    Scenario.actuator.Ready ∧
    (Scenario.actuator.getControls (Scenario.turning [2, 0, 0, 0, 0, 10, 99])).length = 7 ∧
    Scenario.actuator.computeForce (Scenario.turning [2, 0, 0, 0, 0, 10, 99]) Scenario.noForces []
      = (.ok (), applyForceToPoint (Scenario.turning [2, 0, 0, 0, 0, 10, 99]) Scenario.torso
          ⟨1, 0, 0⟩ ⟨0, 0, 10⟩
          (applyTorque (Scenario.turning [2, 0, 0, 0, 0, 10, 99]) Scenario.torso ⟨2, 0, 0⟩
            Scenario.noForces), []) ∧
    Scenario.actuator.getPower (Scenario.turning [2, 0, 0, 0, 0, 10, 99]) = .ok 2 := by
  refine ⟨Scenario.actuator_ready, rfl, ?_, ?_⟩
  · exact BodyActuator.computeForce_eq Scenario.actuator
      (Scenario.turning [2, 0, 0, 0, 0, 10, 99]) Scenario.noForces [] Scenario.model
      Scenario.torso Scenario.torso 2 0 0 0 0 10 [99] rfl rfl rfl rfl
  · rw [BodyActuator.getPower_eq Scenario.actuator
      (Scenario.turning [2, 0, 0, 0, 0, 10, 99]) Scenario.model
      Scenario.torso Scenario.torso 2 0 0 0 0 10 [99] rfl rfl rfl rfl]
    simp [State.getBodyVelocity, Scenario.turning, Scenario.torso, Body.getIndex, Vec3.zero_x,
      Vec3.zero_y, Vec3.zero_z]

/-- C8, amended.  For a Ready actuator, `computeForce` and `getPower` do not
check the length of the control vector and never fail with a
ControlVectorSizeError; when the vector has at least six entries both succeed
and use entries 0 to 5 only, whatever follows them. -/
theorem control_entries_used (a : BodyActuator) (s : State ℚ) (bodyForces : BodyForces ℚ)
    (generalizedForces : List ℚ) (b : Body)
    (hr : a.Ready) (hb : a.body.connectee = some b) :
    (a.computeForce s bodyForces generalizedForces).1 ≠ .error .ControlVectorSizeError ∧
    a.getPower s ≠ .error .ControlVectorSizeError ∧
    ∀ (c0 c1 c2 c3 c4 c5 : ℚ) (rest : List ℚ),
      a.getControls s = c0 :: c1 :: c2 :: c3 :: c4 :: c5 :: rest →
      a.computeForce s bodyForces generalizedForces
        = (.ok (), applyForceToPoint s b (s.getBodyOriginLocation b.getIndex) ⟨c3, c4, c5⟩
            (applyTorque s b ⟨c0, c1, c2⟩ bodyForces), generalizedForces) ∧
      a.getPower s = .ok
        (c0 * (s.getBodyVelocity b.getIndex).rot.x + c1 * (s.getBodyVelocity b.getIndex).rot.y
          + c2 * (s.getBodyVelocity b.getIndex).rot.z
          + c3 * (s.getBodyVelocity b.getIndex).lin.x
          + c4 * (s.getBodyVelocity b.getIndex).lin.y
          + c5 * (s.getBodyVelocity b.getIndex).lin.z) := by
  obtain ⟨m, hm, hl⟩ := hr.lookup hb
  refine ⟨BodyActuator.computeForce_ne_size a s bodyForces generalizedForces,
    BodyActuator.getPower_ne_size a s, ?_⟩
  intro c0 c1 c2 c3 c4 c5 rest hc
  exact ⟨BodyActuator.computeForce_eq a s bodyForces generalizedForces m b b
      c0 c1 c2 c3 c4 c5 rest hm hb hl hc,
    BodyActuator.getPower_eq a s m b b c0 c1 c2 c3 c4 c5 rest hm hb hl hc⟩

/-- C8 amended, witness: eight entries; the outcome of `computeForce` is the one
of the first six. -/
theorem control_entries_used_witness :
    Scenario.actuator.computeForce (Scenario.atRest [1, 2, 3, 0, 0, 10, 99, 98])
        Scenario.noForces []
      = (.ok (), applyForceToPoint (Scenario.atRest [1, 2, 3, 0, 0, 10, 99, 98]) Scenario.torso
          ⟨1, 0, 0⟩ ⟨0, 0, 10⟩
          (applyTorque (Scenario.atRest [1, 2, 3, 0, 0, 10, 99, 98]) Scenario.torso ⟨1, 2, 3⟩
            Scenario.noForces), []) ∧
    Scenario.actuator.getPower (Scenario.atRest [1, 2, 3, 0, 0])
      ≠ .error .ControlVectorSizeError :=
  ⟨((control_entries_used Scenario.actuator (Scenario.atRest [1, 2, 3, 0, 0, 10, 99, 98])
      Scenario.noForces [] Scenario.torso Scenario.actuator_ready rfl).2.2
      1 2 3 0 0 10 [99, 98] rfl).1,
    (control_entries_used Scenario.actuator (Scenario.atRest [1, 2, 3, 0, 0])
      Scenario.noForces [] Scenario.torso Scenario.actuator_ready rfl).2.1⟩

/-- C9.  Frame of `computeForce`: for a Ready actuator with target body `b`, the
call succeeds when the control vector has its six entries, and in every case
`generalizedForces` is the same after the call as before and so is every slot
of `bodyForces` other than the one of `b`.  The state and the actuator are
read-only arguments: the call produces no new value for either. -/
theorem computeForce_frame (a : BodyActuator) (s : State ℚ) (bodyForces : BodyForces ℚ)
    (generalizedForces : List ℚ) (b : Body)
    (hr : a.Ready) (hb : a.body.connectee = some b) :
    (6 ≤ (a.getControls s).length →
      (a.computeForce s bodyForces generalizedForces).1 = .ok ()) ∧
    (a.computeForce s bodyForces generalizedForces).2.2 = generalizedForces ∧
    ∀ i, i ≠ b.getIndex →
      (a.computeForce s bodyForces generalizedForces).2.1 i = bodyForces i := by
  refine ⟨?_, ?_⟩
  · intro hc
    obtain ⟨c, hcon⟩ := BodyActuator.computeForce_contribution a s b hr hb hc
    rw [hcon]
  · by_cases hc : 6 ≤ (a.getControls s).length
    · obtain ⟨c, hcon⟩ := BodyActuator.computeForce_contribution a s b hr hb hc
      rw [hcon]
      exact ⟨rfl, fun i hi => BodyForces.addInto_other _ _ _ _ hi⟩
    · rcases BodyActuator.computeForce_unchanged_or_ok a s bodyForces generalizedForces with h | h
      · exact absurd (BodyActuator.computeForce_ok_controls a s _ _ h) hc
      · rw [h]
        exact ⟨rfl, fun _ _ => rfl⟩

/-- C9, witness: a call for "torso" on an accumulator that holds (5,5,5),(7,7,7)
in every slot leaves the slot of "pelvis" and the generalized forces alone. -/
theorem computeForce_frame_witness :
    (Scenario.actuator.computeForce (Scenario.atRest [0, 0, 0, 0, 0, 10])
      (fun _ => ⟨⟨5, 5, 5⟩, ⟨7, 7, 7⟩⟩) [4, 2]).1 = .ok () ∧
    (Scenario.actuator.computeForce (Scenario.atRest [0, 0, 0, 0, 0, 10])
      (fun _ => ⟨⟨5, 5, 5⟩, ⟨7, 7, 7⟩⟩) [4, 2]).2.2 = [4, 2] ∧
    (Scenario.actuator.computeForce (Scenario.atRest [0, 0, 0, 0, 0, 10])
      (fun _ => ⟨⟨5, 5, 5⟩, ⟨7, 7, 7⟩⟩) [4, 2]).2.1 2 = ⟨⟨5, 5, 5⟩, ⟨7, 7, 7⟩⟩ :=
  have h := computeForce_frame Scenario.actuator (Scenario.atRest [0, 0, 0, 0, 0, 10])
    (fun _ => ⟨⟨5, 5, 5⟩, ⟨7, 7, 7⟩⟩) [4, 2] Scenario.torso Scenario.actuator_ready rfl
  ⟨h.1 (by decide), h.2.1, h.2.2 2 (by decide)⟩

/-- C10.  Kinematics are looked up by the name of the connectee.  For an
actuator attached to the model `m` whose connector is resolved to `b`:
when the body set of `m` has `inSet` under the name of `b`, `computeForce`
applies the force at the origin location of `inSet` and `getPower` uses the
velocity of `inSet`; when the body set has no body of that name both calls fail
although the connector is resolved, and the accumulator is untouched; and
recording another name with `setBodyName` changes the result of neither
call. -/
theorem kinematics_by_connectee_name (a : BodyActuator) (s : State ℚ) (bodyForces : BodyForces ℚ)
    (generalizedForces : List ℚ) (m : Model) (b : Body) (n : String)
    (c0 c1 c2 c3 c4 c5 : ℚ)
    (hm : a.model = some m) (hb : a.body.connectee = some b)
    (hc : a.getControls s = [c0, c1, c2, c3, c4, c5]) :
    (∀ inSet, BodySet.get m.getBodySet b.getName = .ok inSet →
      a.computeForce s bodyForces generalizedForces
        = (.ok (), applyForceToPoint s b (s.getBodyOriginLocation inSet.getIndex) ⟨c3, c4, c5⟩
            (applyTorque s b ⟨c0, c1, c2⟩ bodyForces), generalizedForces) ∧
      a.getPower s = .ok
        (c0 * (s.getBodyVelocity inSet.getIndex).rot.x
          + c1 * (s.getBodyVelocity inSet.getIndex).rot.y
          + c2 * (s.getBodyVelocity inSet.getIndex).rot.z
          + c3 * (s.getBodyVelocity inSet.getIndex).lin.x
          + c4 * (s.getBodyVelocity inSet.getIndex).lin.y
          + c5 * (s.getBodyVelocity inSet.getIndex).lin.z)) ∧
    ((∀ x ∈ m.getBodySet, x.getName ≠ b.getName) →
      a.computeForce s bodyForces generalizedForces
        = (.error (.NameNotFound b.getName), bodyForces, generalizedForces) ∧
      a.getPower s = .error (.NameNotFound b.getName)) ∧
    (a.setBodyName n).computeForce s bodyForces generalizedForces
      = a.computeForce s bodyForces generalizedForces ∧
    (a.setBodyName n).getPower s = a.getPower s := by
  refine ⟨?_, ?_, ?_, ?_⟩
  · intro inSet hl
    exact ⟨BodyActuator.computeForce_eq a s bodyForces generalizedForces m b inSet
        c0 c1 c2 c3 c4 c5 [] hm hb hl hc,
      BodyActuator.getPower_eq a s m b inSet c0 c1 c2 c3 c4 c5 [] hm hb hl hc⟩
  · intro habs
    have hf := BodySet.find_eq_none m.getBodySet b.getName habs
    have hl : BodySet.get m.getBodySet b.getName = .error (.NameNotFound b.getName) := by
      simp [BodySet.get, hf]
    simp [BodyActuator.computeForce, BodyActuator.getPower, Connector.getConnectee,
      BodyActuator.getModel, hm, hb, hl, bind, Except.bind]
  · rfl
  · rfl

/-- C10, witness: the connector is bound with `setBody` to a body object named
"torso" with index 7, which is not the one of the model: the location read is
the one of index 1, the index of the "torso" of the model.  Bound to a body
named "ghost" the call fails. -/
theorem kinematics_by_connectee_name_witness :
    (Scenario.actuator.setBody ⟨"torso", 7⟩).computeForce
        (Scenario.atRest [0, 0, 0, 0, 0, 10]) Scenario.noForces []
      = (.ok (), applyForceToPoint (Scenario.atRest [0, 0, 0, 0, 0, 10]) ⟨"torso", 7⟩
          ((Scenario.atRest [0, 0, 0, 0, 0, 10]).getBodyOriginLocation 1) ⟨0, 0, 10⟩
          (applyTorque (Scenario.atRest [0, 0, 0, 0, 0, 10]) ⟨"torso", 7⟩ ⟨0, 0, 0⟩
            Scenario.noForces), []) ∧
    ((Scenario.actuator.setBody ⟨"torso", 7⟩).setBodyName "pelvis").getPower
        (Scenario.atRest [0, 0, 0, 0, 0, 10])
      = (Scenario.actuator.setBody ⟨"torso", 7⟩).getPower
        (Scenario.atRest [0, 0, 0, 0, 0, 10]) ∧
    (Scenario.actuator.setBody ⟨"ghost", 3⟩).getPower (Scenario.atRest [0, 0, 0, 0, 0, 10])
      = .error (.NameNotFound "ghost") :=
  have h := kinematics_by_connectee_name (Scenario.actuator.setBody ⟨"torso", 7⟩)
    (Scenario.atRest [0, 0, 0, 0, 0, 10]) Scenario.noForces [] Scenario.model ⟨"torso", 7⟩
    "pelvis" 0 0 0 0 0 10 rfl rfl rfl
  have g := kinematics_by_connectee_name (Scenario.actuator.setBody ⟨"ghost", 3⟩)
    (Scenario.atRest [0, 0, 0, 0, 0, 10]) Scenario.noForces [] Scenario.model ⟨"ghost", 3⟩
    "pelvis" 0 0 0 0 0 10 rfl rfl rfl
  ⟨(h.1 Scenario.torso rfl).1, h.2.2.2, (g.2.1 (by decide)).2⟩

end OpenSim
